import Mathlib

/-!
# Verification of the UselessBoxes control firmware

A shallow embedding of the control logic of the UselessBoxes firmware
(`src/PlatformIO/src/Useless_Boxes.cpp` and the second revision of the same
sketch shipped in the repository), together with proofs of the stated
properties of the button debouncer, the settings menu, the buzzer pattern
player, the active-claim arbiter and the motor controller.

The repository contains two revisions of the sketch.  Where they differ we
embed both, in the namespaces `P0` (the revision with soft-start, buzzer
volume and the aggressive low-speed duty map) and `Pio`
(`src/PlatformIO/src/Useless_Boxes.cpp`).  Functions shared verbatim by both
revisions are embedded once at the top level.

Conventions of the embedding:
* `millis()` timestamps are `Nat`; `unsigned long` subtraction is modelled by
  truncated `Nat` subtraction (times in all traces stay far below `2^32`, so
  no wrap-around occurs).
* digital levels are `Bool` with `true = HIGH` and `false = LOW`;
* C `int` values that can go negative (`calculateEffectiveSpeed`) are `Int`;
  every division the source performs is on non-negative operands, where C
  truncated division agrees with `Int` division;
* pin writes (`digitalWrite`, `tone`) are recorded in state fields
  (`en1`, `in1`, `in2`, `toneFreq`); `Serial` output and the `Preferences`
  store are not modelled (no claim mentions them).
-/

namespace UselessBoxes

/-- `DEFAULT_LONG_PRESS_TIME` (ms), from `Useless_Boxes.h`. -/
def DEFAULT_LONG_PRESS_TIME : Nat := 1000

/-- `DEFAULT_DEBOUNCE_TIME` (ms), from `Useless_Boxes.h`. -/
def DEFAULT_DEBOUNCE_TIME : Nat := 50

/-- `MOTOR_SOFT_START_DURATION` (ms), from `Useless_Boxes.h`. -/
def MOTOR_SOFT_START_DURATION : Nat := 150

/-- `BUZZER_INTERVAL` (ms), from `Useless_Boxes.h`. -/
def BUZZER_INTERVAL : Nat := 250

/-- `MOTOR_PWM_CYCLE_TIME` (ms), file-local constant of the `Pio` revision. -/
def MOTOR_PWM_CYCLE_TIME : Nat := 10

/-! ## Settings button: debounce and press classification

State mutated by `handleSettingsButton` (identical in both revisions).
-/

/-- The file-local button-tracking globals of `Useless_Boxes.cpp`. -/
structure ButtonState where
  settingsButtonState : Bool
  lastSettingsButtonState : Bool
  pressedTime : Nat
  longPressActive : Bool
  lastDebounceTime : Nat
  shortPressCount : Nat
  longPressCount : Nat
deriving DecidableEq, Repr

/-- One call of `handleSettingsButton` (identical in both revisions), as a
pure step on `ButtonState`.  `inp` is the pair
`(digitalRead(BUTTON_PIN), millis())` sampled at the top of the call;
`LPT`/`DT` are the runtime settings `LONG_PRESS_TIME`/`DEBOUNCE_TIME`. -/
def handleSettingsButton (LPT DT : Nat) (s : ButtonState) (inp : Bool × Nat) :
    ButtonState :=
  let reading := inp.1
  let now := inp.2
  -- if (reading != lastSettingsButtonState) lastDebounceTime = millis();
  let s1 := if reading ≠ s.lastSettingsButtonState then
    { s with lastDebounceTime := now } else s
  -- if ((millis() - lastDebounceTime) > DEBOUNCE_TIME) ...
  let s2 :=
    if now - s1.lastDebounceTime > DT then
      if reading ≠ s1.settingsButtonState then
        let s' := { s1 with settingsButtonState := reading }
        if reading = false then
          -- just pressed (LOW)
          { s' with pressedTime := now, longPressActive := false }
        else
          -- just released: pressDuration = millis() - pressedTime
          if now - s'.pressedTime < LPT ∧ s'.longPressActive = false then
            { s' with shortPressCount := s'.shortPressCount + 1 }
          else s'
      else s1
    else s1
  -- long-press detection while held
  let s3 :=
    if s2.settingsButtonState = false ∧ s2.longPressActive = false ∧
        now - s2.pressedTime > LPT then
      { s2 with longPressActive := true, longPressCount := s2.longPressCount + 1 }
    else s2
  { s3 with lastSettingsButtonState := reading }

/-- Input-sequence predicate for the glitch-absorption property: starting
from previous raw sample `prev` whose last level change happened at `lc0`,
every sample of the list is taken strictly less than `DT` after the most
recent raw level change.  This is computed from the input sequence alone
(`lc` is re-derived, not read from the code's state). -/
def glitchOnly (DT : Nat) : Bool → Nat → List (Bool × Nat) → Bool
  | _, _, [] => true
  | prev, lc0, (r, t) :: rest =>
    let lc := if r ≠ prev then t else lc0
    decide (t - lc < DT) && glitchOnly DT r lc rest

/-! ## Serial menu (button-driven navigation) -/

/-- The `name` column of the `menuItems[]` table of the `Pio` revision (the
`onShow`/`onAdjust`/`onConfirm` function pointers mutate the preset settings
and output text; they do not touch the menu-navigation state). -/
def menuItemNames : List String :=
  ["Active RGB", "Inactive RGB", "RGB Brightness", "Active Buzzer",
   "Inactive Buzzer", "Motor Speed"]

/-- `totalMenus = sizeof(menuItems) / sizeof(MenuItem)` for the `Pio` table. -/
def totalMenus : Nat := menuItemNames.length

/-- The file-local menu-navigation globals. -/
structure MenuState where
  menuIndex : Nat
  inSubMenu : Bool
  lastShortPressCount : Nat
  lastLongPressCount : Nat
  lastInteractionTime : Nat
deriving DecidableEq, Repr

/-- One call of `handleSerialMenu` of the `Pio` revision (the menu-timeout
block is commented out there), parametrised by the menu-table size `n`
(the code's `totalMenus`).  `shortPressCount`/`longPressCount` are the
monotone counters maintained by `handleSettingsButton`; `now = millis()`. -/
def handleSerialMenu (n : Nat) (shortPressCount longPressCount now : Nat)
    (s : MenuState) : MenuState :=
  -- short press: next menu item OR adjust submenu value
  let s1 :=
    if shortPressCount > s.lastShortPressCount then
      let s' := { s with lastShortPressCount := shortPressCount,
                         lastInteractionTime := now }
      if s'.inSubMenu = false then
        { s' with menuIndex := (s'.menuIndex + 1) % n }
      else
        s'  -- menuItems[menuIndex].onAdjust(): no menu-state change
    else s
  -- long press: enter submenu OR confirm/save
  if longPressCount > s1.lastLongPressCount then
    let s' := { s1 with lastLongPressCount := longPressCount,
                        lastInteractionTime := now }
    if s'.inSubMenu = false then
      { s' with inSubMenu := true }   -- menuItems[menuIndex].onShow()
    else
      { s' with inSubMenu := false }  -- menuItems[menuIndex].onConfirm()
  else s1

/-! ## Buzzer pattern player -/

/-- The `BuzzerPattern` enum of `Useless_Boxes.h`. -/
inductive BuzzerPattern where
  | off
  | single
  | chirp
  | loop
  | sos
deriving DecidableEq, Repr

/-- The buzzer playback globals (`currentBuzzerPattern`, `buzzerStep`,
`buzzerLast`, `buzzerState`) plus the current `tone`/`noTone` output of the
buzzer pin (`toneFreq = none` after `noTone`). -/
structure BuzzerState where
  pattern : BuzzerPattern
  step : Nat
  last : Nat
  state : Bool
  toneFreq : Option Nat
deriving DecidableEq, Repr

/-- `triggerBuzzerPattern` (identical in both revisions): start playback of a
pattern from step 0 at time `now`. -/
def triggerBuzzerPattern (pattern : BuzzerPattern) (now : Nat) : BuzzerState :=
  { pattern := pattern, step := 0, last := now, state := false, toneFreq := none }

/-- `chirpFreqs` local array of the `BUZZER_CHIRP` case. -/
def chirpFreqs : List Nat := [800, 1200, 800]

/-- `sosDurations` local array of the `BUZZER_SOS` case (`P0` revision; the
`Pio` revision uses 450 for the three long steps). -/
def sosDurations : List Nat := [0, 150, 150, 150, 400, 400, 400, 150, 150, 150]

/-- One call of `updateBuzzerAlarm` of the `P0` revision at time `now`. -/
def updateBuzzerAlarm (now : Nat) (b : BuzzerState) : BuzzerState :=
  match b.pattern with
  | .off => { b with toneFreq := none }
  | .single =>
    if b.step = 0 then
      { b with toneFreq := some 1000, last := now, step := 1 }
    else if now - b.last ≥ 120 then
      { b with toneFreq := none, pattern := .off, step := 0 }
    else b
  | .chirp =>
    if b.step < 3 then
      if now - b.last ≥ 120 + 50 ∨ b.step = 0 then
        { b with toneFreq := some (chirpFreqs.getD b.step 0), last := now,
                 step := b.step + 1 }
      else b
    else if now - b.last ≥ 120 then
      { b with toneFreq := none, pattern := .off, step := 0 }
    else b
  | .loop =>
    if now - b.last ≥ BUZZER_INTERVAL then
      let st := ! b.state
      { b with last := now, state := st,
               toneFreq := if st then some 1000 else none }
    else b
  | .sos =>
    if b.step < 10 then
      if now - b.last ≥ sosDurations.getD b.step 0 + 150 then
        -- tone(BUZZER_PIN, 800, sosDurations[buzzerStep])
        { b with toneFreq := some 800, last := now, step := b.step + 1 }
      else b
    else if now - b.last ≥ 150 then
      { b with pattern := .off, step := 0 }
    else b

/-- Run `updateBuzzerAlarm` once per millisecond: `simBuzzer b t0 k` is the
state after the ticks at times `t0+1, …, t0+k`. -/
def simBuzzer (b : BuzzerState) (t0 : Nat) : Nat → BuzzerState
  | 0 => b
  | k + 1 => simBuzzer (updateBuzzerAlarm (t0 + 1) b) (t0 + 1) k

/-- Time (from the trigger) at which step `i` of the SOS table fires under
millisecond ticking: the sum of the first `i+1` entries of
`sosDurations[k] + 150`. -/
def sosFireTime (i : Nat) : Nat :=
  (((sosDurations.take (i + 1)).map (fun d => d + 150))).sum

/-! ## Motor controller, `P0` revision (soft start + aggressive duty map) -/

/-- `calculateEffectiveSpeed` of the `P0` revision.  Every division performed
is on non-negative operands, where C truncated division and `Int` division
agree. -/
def calculateEffectiveSpeed (speedPercent : Int) (isStarting : Bool) : Int :=
  if speedPercent ≤ 0 then 0
  else if isStarting then 100   -- full power during soft start
  else if speedPercent > 100 then 100
  else if speedPercent ≤ 20 then speedPercent / 10
  else 2 + ((speedPercent - 20) * 98) / 80

/-- The shared mutable state of the `P0` revision touched by
`handleSwitchDetection` / `modifyMotorState` / `updateMotorPWM` /
`onActiveBoxChange`: presets, RGB/buzzer playback, the active-claim slot and
the motor/PWM globals, plus the recorded levels of the motor pins. -/
structure SysP0 where
  activeRGBSetting : Nat
  inactiveRGBSetting : Nat
  activeBuzzerSetting : BuzzerPattern
  inactiveBuzzerSetting : BuzzerPattern
  currentRGBMode : Nat
  buzzer : BuzzerState
  active_box : String
  stateChanged : Bool
  switch_forward : Bool
  limit_pressed : Bool
  motor_forward : Bool
  motor_enabled : Bool
  motor_speed_percent : Int
  motorIsStarting : Bool
  motorStartTime : Nat
  lastMotorDirection : Int
  motorShouldRunPWM : Bool
  lastPWMUpdate : Nat
  pwmCycleStart : Nat
  pwmEnableState : Bool
  en1 : Bool
  in1 : Bool
  in2 : Bool
deriving DecidableEq, Repr

namespace P0

/-- `modifyMotorState(switchState, limitState)` of the `P0` revision at time
`now`, with the board's `BOX_NAME` passed explicitly. -/
def modifyMotorState (boxName : String) (switchState limitState : Bool)
    (now : Nat) (s : SysP0) : SysP0 :=
  -- determine current motor direction (1=forward, -1=reverse, 0=stopped)
  let branch :=
    if switchState = true ∧ s.active_box ≠ boxName then
      -- forward direction: limit switch ignored
      ({ s with motor_forward := true, in1 := true, in2 := false }, (1 : Int), true)
    else if limitState = false then
      -- reverse direction
      ({ s with motor_forward := false, in1 := false, in2 := true }, (-1 : Int), true)
    else
      -- stop motor; cancel soft-start when stopping
      ({ s with motor_forward := false, in1 := false, in2 := false,
                motorIsStarting := false, motorStartTime := 0 }, (0 : Int), false)
  let s1 := branch.1
  let currentDirection := branch.2.1
  let motorShouldRun := branch.2.2
  -- direction change into a running direction triggers soft start
  let s2 :=
    if motorShouldRun = true ∧ currentDirection ≠ 0 ∧
        currentDirection ≠ s1.lastMotorDirection then
      { s1 with motorIsStarting := true, motorStartTime := now }
    else s1
  let s3 := { s2 with lastMotorDirection := currentDirection }
  -- soft-start phase completion check
  let s4 :=
    if s3.motorIsStarting = true ∧ now - s3.motorStartTime ≥ MOTOR_SOFT_START_DURATION then
      { s3 with motorIsStarting := false }
    else s3
  -- hand over to the software PWM; reset the PWM cycle
  let s5 := { s4 with motorShouldRunPWM := s4.motor_enabled && motorShouldRun,
                      pwmCycleStart := now, pwmEnableState := false }
  -- if the motor should stop, immediately disable the enable pin
  if s5.motorShouldRunPWM = false then { s5 with en1 := false } else s5

/-- `updateMotorPWM()` of the `P0` revision at time `now`.  The constants
`MOTOR_PWM_UPDATE_INTERVAL` and `MOTOR_PWM_PERIOD` are referenced by this
revision but their defining header is not part of the repository snapshot, so
they are passed as the parameters `interval` and `period` (the source's
comments describe a 5000 ms period). -/
def updateMotorPWM (interval period : Nat) (now : Nat) (s : SysP0) : SysP0 :=
  if now - s.lastPWMUpdate < interval then s
  else
    let s := { s with lastPWMUpdate := now }
    -- if motor shouldn't run, keep enable pin LOW
    if s.motorShouldRunPWM = false ∨ s.motor_enabled = false then
      { s with en1 := false, pwmEnableState := false }
    else
      let effectiveSpeed := calculateEffectiveSpeed s.motor_speed_percent s.motorIsStarting
      if effectiveSpeed ≤ 0 then
        { s with en1 := false, pwmEnableState := false }
      else if effectiveSpeed ≥ 100 then
        { s with en1 := true, pwmEnableState := true }
      else
        -- onTime = (MOTOR_PWM_PERIOD * effectiveSpeed) / 100 (both ≥ 0 here)
        let onTime := (period * effectiveSpeed.toNat) / 100
        let onTime := if onTime > period then period else onTime
        let cyclePosition := (now - s.pwmCycleStart) % period
        let shouldBeHigh := decide (cyclePosition < onTime)
        if shouldBeHigh ≠ s.pwmEnableState then
          { s with pwmEnableState := shouldBeHigh, en1 := shouldBeHigh }
        else s

/-- `onActiveBoxChange()` of the `P0` revision: the push handler run when the
shared `active_box` slot has been updated by the cloud transport.
`switchState = digitalRead(SWITCH_PIN)` at the time of the callback. -/
def onActiveBoxChange (boxName : String) (switchState : Bool) (now : Nat)
    (s : SysP0) : SysP0 :=
  if s.active_box = boxName then
    { s with currentRGBMode := s.activeRGBSetting }
  else
    -- another box claimed active
    let s1 :=
      if switchState = true then
        { s with buzzer := triggerBuzzerPattern s.inactiveBuzzerSetting now,
                 stateChanged := true }
      else s
    { s1 with currentRGBMode := s1.inactiveRGBSetting }

end P0

/-! ## Motor controller and switch handler, `Pio` revision
(`src/PlatformIO/src/Useless_Boxes.cpp`) -/

/-- The shared mutable state of the `Pio` revision touched by
`handleSwitchDetection` / `modifyMotorState` / `updateMotorPWM` /
`onActiveBoxChange`. -/
structure SysPio where
  activeRGBSetting : Nat
  inactiveRGBSetting : Nat
  activeBuzzerSetting : BuzzerPattern
  inactiveBuzzerSetting : BuzzerPattern
  currentRGBMode : Nat
  buzzer : BuzzerState
  active_box : String
  stateChanged : Bool
  switch_forward : Bool
  limit_pressed : Bool
  motorSpeed : Nat
  motorDirection : Int
  motorShouldRun : Bool
  lastMotorPWMUpdate : Nat
  motorPWMEnabled : Bool
  en1 : Bool
  in1 : Bool
  in2 : Bool
deriving DecidableEq, Repr

namespace Pio

/-- `modifyMotorState(switchState, limitState)` of the `Pio` revision at time
`now`. -/
def modifyMotorState (boxName : String) (switchState limitState : Bool)
    (now : Nat) (s : SysPio) : SysPio :=
  if switchState = true ∧ s.active_box ≠ boxName then
    -- forward direction: limit switch ignored
    { s with motorDirection := 1, motorShouldRun := true,
             lastMotorPWMUpdate := now, motorPWMEnabled := false,
             in1 := true, in2 := false }
  else if limitState = false then
    -- reverse direction
    { s with motorDirection := -1, motorShouldRun := true,
             lastMotorPWMUpdate := now, motorPWMEnabled := false,
             in1 := false, in2 := true }
  else
    -- stop motor
    { s with motorShouldRun := false, motorDirection := 0 }

/-- `handleSwitchDetection()` of the `Pio` revision.  `switchState` and
`limitState` are the raw reads of `SWITCH_PIN` and `LIMIT_PIN` at the top of
the call; `now = millis()`. -/
def handleSwitchDetection (boxName : String) (switchState limitState : Bool)
    (now : Nat) (s : SysPio) : SysPio :=
  let s1 :=
    if switchState ≠ s.switch_forward then
      let s' := { s with switch_forward := switchState, stateChanged := true }
      if switchState = true then
        -- switch turned ON: always claim active, play active buzzer + LED
        { s' with currentRGBMode := s'.activeRGBSetting,
                  buzzer := triggerBuzzerPattern s'.activeBuzzerSetting now,
                  active_box := boxName }
      else if switchState = false ∧ s'.active_box ≠ boxName then
        -- switch turned OFF while another box holds the claim
        { s' with currentRGBMode := s'.inactiveRGBSetting,
                  buzzer := triggerBuzzerPattern s'.inactiveBuzzerSetting now }
      else if switchState = false ∧ s'.active_box = boxName then
        -- switch turned OFF while we hold the claim: silent release
        { s' with currentRGBMode := s'.inactiveRGBSetting,
                  active_box := "NONE" }
      else s'
    else s
  let s2 :=
    if limitState ≠ s1.limit_pressed then
      { s1 with limit_pressed := limitState, stateChanged := true }
    else s1
  if s2.stateChanged = true then
    { modifyMotorState boxName switchState limitState now s2 with
      stateChanged := false }
  else s2

/-- `updateMotorPWM()` of the `Pio` revision at time `now`.  The source
computes `onTime = (float)motorSpeed / 100.0f * MOTOR_PWM_CYCLE_TIME` and
truncates to `unsigned long`; for every integer `motorSpeed` in `[0,100]`
that float computation yields exactly `motorSpeed * MOTOR_PWM_CYCLE_TIME
/ 100` (integer division), which is how it is modelled here. -/
def updateMotorPWM (now : Nat) (s : SysPio) : SysPio :=
  let onTime := s.motorSpeed * MOTOR_PWM_CYCLE_TIME / 100
  let offTime := MOTOR_PWM_CYCLE_TIME - onTime
  -- if motor shouldn't run, turn it off immediately
  if s.motorShouldRun = false then
    { s with en1 := false, motorPWMEnabled := false }
  else if s.motorPWMEnabled = true then
    -- currently ON: check if we should turn OFF
    if now - s.lastMotorPWMUpdate ≥ onTime then
      { s with en1 := false, motorPWMEnabled := false, lastMotorPWMUpdate := now }
    else s
  else
    -- currently OFF: check if we should turn ON
    if now - s.lastMotorPWMUpdate ≥ offTime then
      let s' :=
        if s.motorDirection = 1 then { s with en1 := true }
        else if s.motorDirection = -1 then { s with en1 := true }
        else s
      { s' with motorPWMEnabled := true, lastMotorPWMUpdate := now }
    else s

end Pio

/-! ## Claim theorems -/

/-- Claim C1: the motor direction decision of `modifyMotorState` (both
revisions agree), encoded as the source encodes it (`1` = Forward, `-1` =
Reverse, `0` = Stopped), matches the specification table for every triple of
(switch position, limit pin level, local claim): if the switch is on
(`sw = true`) and the local box does not hold the claim
(`active_box ≠ boxName`), the direction is Forward with the limit ignored;
otherwise — including the case where the switch is on but the local box
already holds the claim — the limit decides: the level the source logs as
RELEASED (`lim = false`, "not asserted") gives Reverse and the level logged
as PRESSED (`lim = true`, "asserted") gives Stopped. -/
theorem claim_C1 (boxName : String) (sw lim : Bool) (now : Nat)
    (s : SysP0) (s2 : SysPio) :
    (P0.modifyMotorState boxName sw lim now s).lastMotorDirection =
      (if sw = true ∧ s.active_box ≠ boxName then 1
       else if lim = false then -1 else 0)
    ∧ (Pio.modifyMotorState boxName sw lim now s2).motorDirection =
      (if sw = true ∧ s2.active_box ≠ boxName then 1
       else if lim = false then -1 else 0) := by
  constructor
  · by_cases h1 : sw = true ∧ s.active_box ≠ boxName
    · simp only [P0.modifyMotorState, if_pos h1]
      repeat' split
      all_goals rfl
    · by_cases h2 : lim = false
      · simp only [P0.modifyMotorState, if_neg h1, if_pos h2]
        repeat' split
        all_goals rfl
      · simp only [P0.modifyMotorState, if_neg h1, if_neg h2]
        repeat' split
        all_goals rfl
  · by_cases h1 : sw = true ∧ s2.active_box ≠ boxName
    · simp only [Pio.modifyMotorState, if_pos h1]
    · by_cases h2 : lim = false
      · simp only [Pio.modifyMotorState, if_neg h1, if_pos h2]
      · simp only [Pio.modifyMotorState, if_neg h1, if_neg h2]

/-- Claim C2: for every run of `onActiveBoxChange` (`P0` revision, the one
that implements this arbitration policy): the resulting RGB mode is the
active preset exactly when the updated claim identity equals the local box,
and the inactive preset otherwise; the inactive buzzer pattern is triggered
and the state-changed flag is forced to `true` exactly when the identity is
not the local box and the local switch is currently on. -/
theorem claim_C2 (boxName : String) (sw : Bool) (now : Nat) (s : SysP0) :
    ((P0.onActiveBoxChange boxName sw now s).currentRGBMode =
       if s.active_box = boxName then s.activeRGBSetting
       else s.inactiveRGBSetting)
    ∧ ((P0.onActiveBoxChange boxName sw now s).buzzer =
       if s.active_box ≠ boxName ∧ sw = true then
         triggerBuzzerPattern s.inactiveBuzzerSetting now
       else s.buzzer)
    ∧ ((P0.onActiveBoxChange boxName sw now s).stateChanged =
       if s.active_box ≠ boxName ∧ sw = true then true
       else s.stateChanged) := by
  by_cases hb : s.active_box = boxName
  · simp [P0.onActiveBoxChange, hb]
  · by_cases hs : sw = true <;> simp [P0.onActiveBoxChange, hb, hs]

/-- Claim C3: on a debounced switch transition to off (`Pio` revision,
`handleSwitchDetection` with the switch previously on and now read low): if
the local box holds the claim, the claim is released by publishing the
neutral identity NONE, the inactive RGB preset is applied, and the buzzer
playback state is left untouched; if the local box does not hold the claim,
the inactive RGB preset is applied, the inactive buzzer pattern is
triggered, and the claim slot is not written. -/
theorem claim_C3 (boxName : String) (lim : Bool) (now : Nat) (s : SysPio)
    (hOn : s.switch_forward = true) :
    (s.active_box = boxName →
       (Pio.handleSwitchDetection boxName false lim now s).active_box = "NONE"
       ∧ (Pio.handleSwitchDetection boxName false lim now s).currentRGBMode
           = s.inactiveRGBSetting
       ∧ (Pio.handleSwitchDetection boxName false lim now s).buzzer = s.buzzer)
    ∧ (s.active_box ≠ boxName →
       (Pio.handleSwitchDetection boxName false lim now s).currentRGBMode
           = s.inactiveRGBSetting
       ∧ (Pio.handleSwitchDetection boxName false lim now s).buzzer
           = triggerBuzzerPattern s.inactiveBuzzerSetting now
       ∧ (Pio.handleSwitchDetection boxName false lim now s).active_box
           = s.active_box) := by
  have hpres : ∀ (sw2 lim2 : Bool) (s' : SysPio),
      (Pio.modifyMotorState boxName sw2 lim2 now s').active_box = s'.active_box
      ∧ (Pio.modifyMotorState boxName sw2 lim2 now s').currentRGBMode
          = s'.currentRGBMode
      ∧ (Pio.modifyMotorState boxName sw2 lim2 now s').buzzer = s'.buzzer := by
    intro sw2 lim2 s'
    unfold Pio.modifyMotorState
    repeat' split
    all_goals exact ⟨rfl, rfl, rfl⟩
  by_cases hb : s.active_box = boxName
  · refine ⟨fun _ => ?_, fun hne => absurd hb hne⟩
    by_cases hl : lim = s.limit_pressed <;>
      simp [Pio.handleSwitchDetection, hOn, hb, hl, hpres]
  · refine ⟨fun heq => absurd heq hb, fun _ => ?_⟩
    by_cases hl : lim = s.limit_pressed <;>
      simp [Pio.handleSwitchDetection, hOn, hb, hl, hpres]

/-- Witness for C3: a concrete state holding the claim, and one not holding
it, both with the switch previously on. -/
theorem claim_C3_witness :
    let mkSys : String → SysPio := fun owner =>
      { activeRGBSetting := 2, inactiveRGBSetting := 4,
        activeBuzzerSetting := .chirp, inactiveBuzzerSetting := .single,
        currentRGBMode := 2, buzzer := triggerBuzzerPattern .off 0,
        active_box := owner, stateChanged := false, switch_forward := true,
        limit_pressed := false, motorSpeed := 100, motorDirection := 1,
        motorShouldRun := true, lastMotorPWMUpdate := 0,
        motorPWMEnabled := false, en1 := false, in1 := true, in2 := false }
    (Pio.handleSwitchDetection "MICHAEL" false true 500 (mkSys "MICHAEL")).active_box
      = "NONE"
    ∧ (Pio.handleSwitchDetection "MICHAEL" false true 500 (mkSys "TREVOR")).buzzer
      = triggerBuzzerPattern .single 500 := by
  intro mkSys
  refine ⟨((claim_C3 "MICHAEL" true 500 (mkSys "MICHAEL") rfl).1 rfl).1, ?_⟩
  exact ((claim_C3 "MICHAEL" true 500 (mkSys "TREVOR") rfl).2 (by decide)).2.1

/-- Counterexample to claim C4 as stated: during the soft-start phase the
effective duty factor is *not* 100% "regardless of the configured speed
percentage" — `calculateEffectiveSpeed` checks `speedPercent <= 0` before
the `isStarting` branch, so a configured speed of 0 yields duty 0 even while
soft-start is active. -/
theorem claim_C4_counterexample :
    calculateEffectiveSpeed 0 true = 0 ∧ calculateEffectiveSpeed 0 true ≠ 100 := by
  decide

/-- Claim C4 (amended: the soft-start duty override applies to every
*positive* configured speed, a configured speed of 0 keeps duty 0 even
during soft-start; and the window is checked only when the motor state is
re-derived, so the duty reverts to the configured speed mapping at the first
state-changed re-derivation at least 150 time-units after the start, not
autonomously when the window elapses): (a) during soft-start the effective
duty factor is 100 for every positive configured speed; (b) the startup
window constant is 150 time-units; (c1)/(c2) every direction change into a
running direction (forward or reverse) begins a soft-start timed from `now`;
(d) a stop decision cancels any in-progress soft-start; (e1)/(e2) when
`modifyMotorState` re-derives the direction unchanged and the window has
elapsed, it clears the soft-start flag, so the duty reverts to the
configured speed mapping; (f) until such a re-derivation clears the flag,
every PWM update keeps driving the enable pin at 100% duty for any positive
configured speed, however much time has passed since the start; (g) the PWM
update itself never clears the soft-start flag — `motorIsStarting` is
written only by `modifyMotorState`. -/
theorem claim_C4_amended :
    (∀ speedPercent : Int, 0 < speedPercent →
       calculateEffectiveSpeed speedPercent true = 100)
    ∧ MOTOR_SOFT_START_DURATION = 150
    ∧ (∀ (boxName : String) (sw lim : Bool) (now : Nat) (s : SysP0),
        sw = true → s.active_box ≠ boxName → s.lastMotorDirection ≠ 1 →
        (P0.modifyMotorState boxName sw lim now s).motorIsStarting = true
        ∧ (P0.modifyMotorState boxName sw lim now s).motorStartTime = now)
    ∧ (∀ (boxName : String) (sw lim : Bool) (now : Nat) (s : SysP0),
        ¬(sw = true ∧ s.active_box ≠ boxName) → lim = false →
        s.lastMotorDirection ≠ -1 →
        (P0.modifyMotorState boxName sw lim now s).motorIsStarting = true
        ∧ (P0.modifyMotorState boxName sw lim now s).motorStartTime = now)
    ∧ (∀ (boxName : String) (sw lim : Bool) (now : Nat) (s : SysP0),
        ¬(sw = true ∧ s.active_box ≠ boxName) → lim = true →
        (P0.modifyMotorState boxName sw lim now s).motorIsStarting = false
        ∧ (P0.modifyMotorState boxName sw lim now s).motorStartTime = 0)
    ∧ (∀ (boxName : String) (sw lim : Bool) (now : Nat) (s : SysP0),
        sw = true → s.active_box ≠ boxName → s.lastMotorDirection = 1 →
        s.motorIsStarting = true →
        now - s.motorStartTime ≥ MOTOR_SOFT_START_DURATION →
        (P0.modifyMotorState boxName sw lim now s).motorIsStarting = false)
    ∧ (∀ (boxName : String) (sw lim : Bool) (now : Nat) (s : SysP0),
        ¬(sw = true ∧ s.active_box ≠ boxName) → lim = false →
        s.lastMotorDirection = -1 → s.motorIsStarting = true →
        now - s.motorStartTime ≥ MOTOR_SOFT_START_DURATION →
        (P0.modifyMotorState boxName sw lim now s).motorIsStarting = false)
    ∧ (∀ (interval period now : Nat) (s : SysP0),
        now - s.lastPWMUpdate ≥ interval → s.motorShouldRunPWM = true →
        s.motor_enabled = true → s.motorIsStarting = true →
        0 < s.motor_speed_percent →
        (P0.updateMotorPWM interval period now s).en1 = true
        ∧ (P0.updateMotorPWM interval period now s).pwmEnableState = true)
    ∧ (∀ (interval period now : Nat) (s : SysP0),
        (P0.updateMotorPWM interval period now s).motorIsStarting
          = s.motorIsStarting) := by
  refine ⟨?_, rfl, ?_, ?_, ?_, ?_, ?_, ?_, ?_⟩
  · intro speedPercent h
    simp [calculateEffectiveSpeed, h, not_le.mpr h]
  · intro boxName sw lim now s hsw hbox hdir
    have h1 : sw = true ∧ s.active_box ≠ boxName := ⟨hsw, hbox⟩
    simp only [P0.modifyMotorState, if_pos h1]
    simp only [Ne.symm hdir, MOTOR_SOFT_START_DURATION]
    repeat' split
    all_goals simp_all
  · intro boxName sw lim now s h1 hlim hdir
    simp only [P0.modifyMotorState, if_neg h1, if_pos hlim]
    simp only [Ne.symm hdir, MOTOR_SOFT_START_DURATION]
    repeat' split
    all_goals simp_all
  · intro boxName sw lim now s h1 hlim
    have h2 : ¬(lim = false) := by simp [hlim]
    simp only [P0.modifyMotorState, if_neg h1, if_neg h2]
    repeat' split
    all_goals simp_all
  · intro boxName sw lim now s hsw hbox hdir hstart helapsed
    have h1 : sw = true ∧ s.active_box ≠ boxName := ⟨hsw, hbox⟩
    simp only [P0.modifyMotorState, if_pos h1]
    simp only [hdir, MOTOR_SOFT_START_DURATION]
    repeat' split
    all_goals simp_all [hstart, helapsed, MOTOR_SOFT_START_DURATION]
  · intro boxName sw lim now s h1 hlim hdir hstart helapsed
    simp only [P0.modifyMotorState, if_neg h1, if_pos hlim]
    simp only [hdir, MOTOR_SOFT_START_DURATION]
    repeat' split
    all_goals simp_all [hstart, helapsed, MOTOR_SOFT_START_DURATION]
  · intro interval period now s hgate hrun hen hstart hspd
    have hlt : ¬ (now - s.lastPWMUpdate < interval) := not_lt.mpr hgate
    have h100 : calculateEffectiveSpeed s.motor_speed_percent s.motorIsStarting
        = 100 := by
      rw [hstart]
      simp [calculateEffectiveSpeed, not_le.mpr hspd]
    simp [P0.updateMotorPWM, hlt, hrun, hen, h100]
  · intro interval period now s
    simp only [P0.updateMotorPWM]
    repeat' split
    all_goals rfl

/-- Witness for the amended C4: the soft-start duty override at configured
speed 50; a concrete stopped-motor state switched on (direction change into
Forward) beginning a soft-start at the current time; and a running state
whose soft-start began at time 0 still driven at full duty at time 10000,
far past the 150 time-unit window, because no state-changed re-derivation
has cleared the flag. -/
theorem claim_C4_amended_witness :
    let sys : SysP0 :=
      { activeRGBSetting := 2, inactiveRGBSetting := 4,
        activeBuzzerSetting := .chirp, inactiveBuzzerSetting := .single,
        currentRGBMode := 4, buzzer := triggerBuzzerPattern .off 0,
        active_box := "NONE", stateChanged := true, switch_forward := false,
        limit_pressed := true, motor_forward := false, motor_enabled := true,
        motor_speed_percent := 50, motorIsStarting := false,
        motorStartTime := 0, lastMotorDirection := 0,
        motorShouldRunPWM := false, lastPWMUpdate := 0, pwmCycleStart := 0,
        pwmEnableState := false, en1 := false, in1 := false, in2 := false }
    let stuck : SysP0 :=
      { activeRGBSetting := 2, inactiveRGBSetting := 4,
        activeBuzzerSetting := .chirp, inactiveBuzzerSetting := .single,
        currentRGBMode := 2, buzzer := triggerBuzzerPattern .off 0,
        active_box := "NONE", stateChanged := false, switch_forward := true,
        limit_pressed := true, motor_forward := true, motor_enabled := true,
        motor_speed_percent := 50, motorIsStarting := true,
        motorStartTime := 0, lastMotorDirection := 1,
        motorShouldRunPWM := true, lastPWMUpdate := 0, pwmCycleStart := 0,
        pwmEnableState := false, en1 := false, in1 := true, in2 := false }
    calculateEffectiveSpeed 50 true = 100
    ∧ (P0.modifyMotorState "MICHAEL" true true 777 sys).motorIsStarting = true
    ∧ (P0.modifyMotorState "MICHAEL" true true 777 sys).motorStartTime = 777
    ∧ (P0.updateMotorPWM 5 5000 10000 stuck).en1 = true
    ∧ (P0.updateMotorPWM 5 5000 10000 stuck).motorIsStarting = true := by
  intro sys stuck
  refine ⟨claim_C4_amended.1 50 (by decide), ?_, ?_, ?_, ?_⟩
  · exact (claim_C4_amended.2.2.1 "MICHAEL" true true 777 sys rfl (by decide)
      (by decide)).1
  · exact (claim_C4_amended.2.2.1 "MICHAEL" true true 777 sys rfl (by decide)
      (by decide)).2
  · exact (claim_C4_amended.2.2.2.2.2.2.2.1 5 5000 10000 stuck (by decide) rfl
      rfl rfl (by decide)).1
  · exact (claim_C4_amended.2.2.2.2.2.2.2.2 5 5000 10000 stuck).trans rfl

/-- Small-step monotonicity of the aggressive duty map of
`calculateEffectiveSpeed` on adjacent inputs, checked over `[0, 100]`. -/
theorem calculateEffectiveSpeed_adj :
    ∀ a : Fin 100,
      calculateEffectiveSpeed a.val false ≤ calculateEffectiveSpeed (a.val + 1) false := by
  decide

/-- Monotonicity of the aggressive duty map on natural inputs up to 100. -/
theorem calculateEffectiveSpeed_mono_nat (a b : Nat) (hab : a ≤ b) (hb : b ≤ 100) :
    calculateEffectiveSpeed a false ≤ calculateEffectiveSpeed b false := by
  obtain ⟨k, rfl⟩ := Nat.exists_eq_add_of_le hab
  clear hab
  revert hb
  induction k with
  | zero => exact fun _ => le_refl _
  | succ n ih =>
    intro hb
    have h1 := ih (by omega)
    have h2 := calculateEffectiveSpeed_adj ⟨a + n, by omega⟩
    have e : ((a + n : Nat) : Int) + 1 = ((a + n + 1 : Nat) : Int) := by
      push_cast
      ring
    rw [e] at h2
    rw [Nat.add_succ]
    exact le_trans h1 h2

/-- Claim C8: both documented duty-cycle mappings are monotone non-decreasing
in the configured speed percentage over `[0, 100]`: the aggressive low-end
map of `calculateEffectiveSpeed` (`P0` revision; inputs at or below 20 are
divided by 10), and the straight proportional on-time map of the `Pio`
revision (`motorSpeed * MOTOR_PWM_CYCLE_TIME / 100`, which is even globally
monotone). -/
theorem claim_C8 :
    (∀ s1 s2 : Int, 0 ≤ s1 → s1 ≤ s2 → s2 ≤ 100 →
       calculateEffectiveSpeed s1 false ≤ calculateEffectiveSpeed s2 false)
    ∧ (∀ n1 n2 : Nat, n1 ≤ n2 →
       n1 * MOTOR_PWM_CYCLE_TIME / 100 ≤ n2 * MOTOR_PWM_CYCLE_TIME / 100) := by
  constructor
  · intro s1 s2 h0 h12 h100
    have h0' : (0 : Int) ≤ s2 := le_trans h0 h12
    have e1 : ((s1.toNat : Nat) : Int) = s1 := Int.toNat_of_nonneg h0
    have e2 : ((s2.toNat : Nat) : Int) = s2 := Int.toNat_of_nonneg h0'
    have hab : s1.toNat ≤ s2.toNat := Int.toNat_le_toNat h12
    have hb : s2.toNat ≤ 100 := by omega
    calc calculateEffectiveSpeed s1 false
        = calculateEffectiveSpeed s1.toNat false := by rw [e1]
      _ ≤ calculateEffectiveSpeed s2.toNat false :=
          calculateEffectiveSpeed_mono_nat _ _ hab hb
      _ = calculateEffectiveSpeed s2 false := by rw [e2]
  · intro n1 n2 h
    exact Nat.div_le_div_right (Nat.mul_le_mul_right _ h)

/-- Witness for C8: the aggressive map at `10 ≤ 50` and the proportional map
at `30 ≤ 70`. -/
theorem claim_C8_witness :
    calculateEffectiveSpeed 10 false ≤ calculateEffectiveSpeed 50 false
    ∧ 30 * MOTOR_PWM_CYCLE_TIME / 100 ≤ 70 * MOTOR_PWM_CYCLE_TIME / 100 :=
  ⟨claim_C8.1 10 50 (by decide) (by decide) (by decide),
   claim_C8.2 30 70 (by decide)⟩

/-- Claim C9: the menu selection index stays within `[0, totalMenus)`: one
`handleSerialMenu` step preserves the bound for any table size `n`, and every
input sequence folded from the boot state (`menuIndex = 0`) over the menu
table of the `Pio` revision keeps `menuIndex < totalMenus`, so every
`menuItems[menuIndex]` access is in bounds. -/
theorem claim_C9 :
    (∀ (n shortPressCount longPressCount now : Nat) (s : MenuState),
       s.menuIndex < n →
       (handleSerialMenu n shortPressCount longPressCount now s).menuIndex < n)
    ∧ (∀ inputs : List (Nat × Nat × Nat),
       ((inputs.foldl
           (fun s i => handleSerialMenu totalMenus i.1 i.2.1 i.2.2 s)
           { menuIndex := 0, inSubMenu := false, lastShortPressCount := 0,
             lastLongPressCount := 0, lastInteractionTime := 0 }).menuIndex)
         < totalMenus) := by
  have hstep : ∀ (n shortPressCount longPressCount now : Nat) (s : MenuState),
      s.menuIndex < n →
      (handleSerialMenu n shortPressCount longPressCount now s).menuIndex < n := by
    intro n sc lc now s h
    have hn : 0 < n := by omega
    have hmod : (s.menuIndex + 1) % n < n := Nat.mod_lt _ hn
    by_cases h1 : sc > s.lastShortPressCount <;>
      by_cases h2 : s.inSubMenu = false <;>
        by_cases h3 : lc > s.lastLongPressCount <;>
          simp [handleSerialMenu, h1, h2, h3, hmod, h]
  refine ⟨hstep, ?_⟩
  intro inputs
  have : ∀ (s : MenuState), s.menuIndex < totalMenus →
      ((inputs.foldl (fun s i => handleSerialMenu totalMenus i.1 i.2.1 i.2.2 s)
        s).menuIndex) < totalMenus := by
    induction inputs with
    | nil => exact fun s h => h
    | cons i rest ih =>
      intro s h
      exact ih _ (hstep totalMenus i.1 i.2.1 i.2.2 s h)
  exact this _ (by decide)

/-- Witness for C9: one step from the boot state with a fresh short press
advances the index and keeps it in bounds. -/
theorem claim_C9_witness :
    (handleSerialMenu totalMenus 1 0 40
      { menuIndex := 0, inSubMenu := false, lastShortPressCount := 0,
        lastLongPressCount := 0, lastInteractionTime := 0 }).menuIndex
      < totalMenus :=
  claim_C9.1 totalMenus 1 0 40
    { menuIndex := 0, inSubMenu := false, lastShortPressCount := 0,
      lastLongPressCount := 0, lastInteractionTime := 0 } (by decide)

/-- Claim C10: whenever the motor-should-run flag is false, the next PWM
update drives the enable pin LOW and clears the PWM-on state, for every
configured speed, time and cycle position.  Stated for the `Pio` revision of
`updateMotorPWM` (unconditional), for the `P0` revision (once its
rate-limiting gate passes), and for the stop branch of the `P0`
`modifyMotorState` (which disables the enable pin immediately). -/
theorem claim_C10 :
    (∀ (now : Nat) (s : SysPio), s.motorShouldRun = false →
       (Pio.updateMotorPWM now s).en1 = false
       ∧ (Pio.updateMotorPWM now s).motorPWMEnabled = false)
    ∧ (∀ (interval period now : Nat) (s : SysP0),
       now - s.lastPWMUpdate ≥ interval → s.motorShouldRunPWM = false →
       (P0.updateMotorPWM interval period now s).en1 = false
       ∧ (P0.updateMotorPWM interval period now s).pwmEnableState = false)
    ∧ (∀ (boxName : String) (sw lim : Bool) (now : Nat) (s : SysP0),
       ¬(sw = true ∧ s.active_box ≠ boxName) → lim = true →
       (P0.modifyMotorState boxName sw lim now s).en1 = false
       ∧ (P0.modifyMotorState boxName sw lim now s).motorShouldRunPWM = false) := by
  refine ⟨?_, ?_, ?_⟩
  · intro now s h
    simp [Pio.updateMotorPWM, h]
  · intro interval period now s hgate h
    have hlt : ¬(now - s.lastPWMUpdate < interval) := not_lt.mpr hgate
    simp [P0.updateMotorPWM, hlt, h]
  · intro boxName sw lim now s h1 hlim
    have h2 : ¬(lim = false) := by simp [hlim]
    simp only [P0.modifyMotorState, if_neg h1, if_neg h2]
    repeat' split
    all_goals simp_all

/-- Witness for C10: a concrete stopped state for each of the three
conjuncts. -/
theorem claim_C10_witness :
    let sysPio : SysPio :=
      { activeRGBSetting := 2, inactiveRGBSetting := 4,
        activeBuzzerSetting := .chirp, inactiveBuzzerSetting := .single,
        currentRGBMode := 4, buzzer := triggerBuzzerPattern .off 0,
        active_box := "NONE", stateChanged := false, switch_forward := false,
        limit_pressed := true, motorSpeed := 80, motorDirection := 0,
        motorShouldRun := false, lastMotorPWMUpdate := 90,
        motorPWMEnabled := true, en1 := true, in1 := false, in2 := true }
    let sysP0 : SysP0 :=
      { activeRGBSetting := 2, inactiveRGBSetting := 4,
        activeBuzzerSetting := .chirp, inactiveBuzzerSetting := .single,
        currentRGBMode := 4, buzzer := triggerBuzzerPattern .off 0,
        active_box := "NONE", stateChanged := false, switch_forward := false,
        limit_pressed := true, motor_forward := false, motor_enabled := true,
        motor_speed_percent := 80, motorIsStarting := true,
        motorStartTime := 60, lastMotorDirection := -1,
        motorShouldRunPWM := false, lastPWMUpdate := 0, pwmCycleStart := 0,
        pwmEnableState := true, en1 := true, in1 := false, in2 := true }
    (Pio.updateMotorPWM 100 sysPio).en1 = false
    ∧ (P0.updateMotorPWM 5 5000 100 sysP0).en1 = false
    ∧ (P0.modifyMotorState "MICHAEL" false true 100 sysP0).en1 = false := by
  intro sysPio sysP0
  refine ⟨(claim_C10.1 100 sysPio rfl).1, ?_, ?_⟩
  · exact (claim_C10.2.1 5 5000 100 sysP0 (by decide) rfl).1
  · exact (claim_C10.2.2 "MICHAEL" false true 100 sysP0 (by decide) rfl).1

/-- One glitchy sample (taken strictly less than the debounce window after
the most recent raw level change) leaves the debounced level unchanged, and
the code's debounce memory tracks the input-derived last-change time. -/
theorem handleSettingsButton_glitch_step (LPT DT : Nat) (s : ButtonState)
    (r : Bool) (t : Nat)
    (hg : t - (if r ≠ s.lastSettingsButtonState then t else s.lastDebounceTime) < DT) :
    (handleSettingsButton LPT DT s (r, t)).settingsButtonState = s.settingsButtonState
    ∧ (handleSettingsButton LPT DT s (r, t)).lastSettingsButtonState = r
    ∧ (handleSettingsButton LPT DT s (r, t)).lastDebounceTime
        = (if r ≠ s.lastSettingsButtonState then t else s.lastDebounceTime) := by
  by_cases hr : r ≠ s.lastSettingsButtonState
  · rw [if_pos hr] at hg
    have hng : ¬ (t - t > DT) := by omega
    simp only [handleSettingsButton, if_pos hr, if_pos hr]
    simp only [if_neg hng]
    repeat' split
    all_goals simp_all
  · rw [if_neg hr] at hg
    have hng : ¬ (t - s.lastDebounceTime > DT) := by omega
    simp only [handleSettingsButton, if_neg hr]
    simp only [if_neg hng]
    repeat' split
    all_goals simp_all

/-- Claim C6: for every input sequence in which no raw level persists for as
long as the debounce window (every sample arrives strictly less than `DT`
after the most recent raw level change, as computed by `glitchOnly` from the
inputs alone), the debounced level `settingsButtonState` never changes. -/
theorem claim_C6 (LPT DT : Nat) (inputs : List (Bool × Nat)) (s : ButtonState)
    (hg : glitchOnly DT s.lastSettingsButtonState s.lastDebounceTime inputs = true) :
    (inputs.foldl (handleSettingsButton LPT DT) s).settingsButtonState
      = s.settingsButtonState := by
  induction inputs generalizing s with
  | nil => rfl
  | cons p rest ih =>
    obtain ⟨r, t⟩ := p
    simp only [glitchOnly, Bool.and_eq_true, decide_eq_true_eq] at hg
    obtain ⟨hg1, hg2⟩ := hg
    have hstep := handleSettingsButton_glitch_step LPT DT s r t hg1
    rw [List.foldl_cons]
    rw [ih]
    · exact hstep.1
    · rw [hstep.2.1, hstep.2.2]
      exact hg2

/-- Witness for C6: three raw level flips 10–20 time-units apart (all inside
the 50 time-unit window) leave the debounced level at its initial HIGH. -/
theorem claim_C6_witness :
    (([(false, 10), (true, 30), (false, 45)] : List (Bool × Nat)).foldl
        (handleSettingsButton 1000 50)
        { settingsButtonState := true, lastSettingsButtonState := true,
          pressedTime := 0, longPressActive := false, lastDebounceTime := 0,
          shortPressCount := 0, longPressCount := 0 }).settingsButtonState
      = true :=
  claim_C6 1000 50 [(false, 10), (true, 30), (false, 45)]
    { settingsButtonState := true, lastSettingsButtonState := true,
      pressedTime := 0, longPressActive := false, lastDebounceTime := 0,
      shortPressCount := 0, longPressCount := 0 } (by decide)

/-- Counterexample to claim C5 as stated: a press whose held duration equals
the long-press threshold exactly increments *neither* counter.  The trace
(with `LONG_PRESS_TIME = 1000`, `DEBOUNCE_TIME = 50`) registers the press at
t = 151 and the release at t = 1151, a debounced held duration of exactly
1000 (the raw level was held from t = 100 to t = 1100, also exactly 1000);
the code requires strictly `>` for a long press and strictly `<` for a short
press, so both counters stay 0, contradicting the claim that a press held
"≥ long-press threshold" increments `longPressCount` by exactly 1. -/
theorem claim_C5_counterexample :
    let s0 : ButtonState :=
      { settingsButtonState := true, lastSettingsButtonState := true,
        pressedTime := 0, longPressActive := false, lastDebounceTime := 0,
        shortPressCount := 0, longPressCount := 0 }
    let trace : List (Bool × Nat) :=
      [(false, 100), (false, 151), (false, 700), (true, 1100), (true, 1151)]
    let mid := (trace.take 2).foldl (handleSettingsButton 1000 50) s0
    let final := trace.foldl (handleSettingsButton 1000 50) s0
    mid.settingsButtonState = false      -- press registered
    ∧ mid.pressedTime = 151
    ∧ final.settingsButtonState = true   -- release registered
    ∧ 1151 - mid.pressedTime = 1000      -- held duration = threshold exactly
    ∧ final.shortPressCount = 0
    ∧ final.longPressCount = 0 := by
  decide

/-- Claim C5 (amended: the comparisons are strict: a held duration strictly
below the threshold gives a short press, strictly above gives a long press
exactly once, and a duration exactly equal to the threshold increments
neither counter).  Conjuncts, all about one `handleSettingsButton` step:
(1) a debounced release with held duration `< LPT` and no long press fired
increments `shortPressCount` by exactly 1 and leaves `longPressCount`
unchanged; (2) while still held with no long press fired, the first tick
with held duration `> LPT` increments `longPressCount` by exactly 1 and
latches `longPressActive`; (3) while `longPressActive` is latched,
`longPressCount` is never incremented again (so the long press counts
exactly once per hold); (4) a debounced release with held duration exactly
`LPT` increments neither counter; (5) a release after a long press fired
does not increment `shortPressCount`. -/
theorem claim_C5_amended (LPT DT : Nat) (s : ButtonState) (reading : Bool) (now : Nat) :
    (s.settingsButtonState = false → reading = true →
     s.lastSettingsButtonState = true → now - s.lastDebounceTime > DT →
     now - s.pressedTime < LPT → s.longPressActive = false →
     (handleSettingsButton LPT DT s (reading, now)).shortPressCount
         = s.shortPressCount + 1
     ∧ (handleSettingsButton LPT DT s (reading, now)).longPressCount
         = s.longPressCount)
    ∧ (s.settingsButtonState = false → reading = false →
       s.longPressActive = false → now - s.pressedTime > LPT →
       (handleSettingsButton LPT DT s (reading, now)).longPressCount
           = s.longPressCount + 1
       ∧ (handleSettingsButton LPT DT s (reading, now)).longPressActive = true
       ∧ (handleSettingsButton LPT DT s (reading, now)).shortPressCount
           = s.shortPressCount)
    ∧ (s.longPressActive = true →
       (handleSettingsButton LPT DT s (reading, now)).longPressCount
           = s.longPressCount)
    ∧ (s.settingsButtonState = false → reading = true →
       s.lastSettingsButtonState = true → now - s.lastDebounceTime > DT →
       now - s.pressedTime = LPT → s.longPressActive = false →
       (handleSettingsButton LPT DT s (reading, now)).shortPressCount
           = s.shortPressCount
       ∧ (handleSettingsButton LPT DT s (reading, now)).longPressCount
           = s.longPressCount)
    ∧ (s.settingsButtonState = false → reading = true →
       s.longPressActive = true →
       (handleSettingsButton LPT DT s (reading, now)).shortPressCount
           = s.shortPressCount) := by
  refine ⟨?_, ?_, ?_, ?_, ?_⟩
  · intro hs hr hL hg hdur hlpa
    subst hr
    simp [handleSettingsButton, hs, hL, hg, hdur, hlpa]
  · intro hs hr hlpa hdur
    subst hr
    simp only [handleSettingsButton]
    repeat' split
    all_goals simp_all
  · intro hlpa
    simp only [handleSettingsButton]
    repeat' split
    all_goals simp_all
  · intro hs hr hL hg hdur hlpa
    subst hr
    have hnd : ¬ (now - s.pressedTime < LPT) := by omega
    simp [handleSettingsButton, hs, hL, hg, hdur, hlpa, hnd]
  · intro hs hr hlpa
    subst hr
    simp only [handleSettingsButton]
    repeat' split
    all_goals simp_all

/-- Witness for the amended C5: a concrete debounced short-press release
(held 400 < 1000) increments the short counter only, and a concrete held
tick past the threshold fires the long press. -/
theorem claim_C5_amended_witness :
    let sHeld : ButtonState :=
      { settingsButtonState := false, lastSettingsButtonState := true,
        pressedTime := 200, longPressActive := false, lastDebounceTime := 480,
        shortPressCount := 3, longPressCount := 1 }
    (handleSettingsButton 1000 50 sHeld (true, 600)).shortPressCount = 4
    ∧ (handleSettingsButton 1000 50 sHeld (true, 600)).longPressCount = 1
    ∧ (handleSettingsButton 1000 50
        { sHeld with lastSettingsButtonState := false }
        (false, 1300)).longPressCount = 2 := by
  intro sHeld
  refine ⟨?_, ?_, ?_⟩
  · exact (claim_C5_amended 1000 50 sHeld true 600 |>.1 rfl rfl rfl
      (by decide) (by decide) rfl).1
  · exact (claim_C5_amended 1000 50 sHeld true 600 |>.1 rfl rfl rfl
      (by decide) (by decide) rfl).2
  · exact (claim_C5_amended 1000 50
      { sHeld with lastSettingsButtonState := false } false 1300 |>.2.1 rfl rfl
      rfl (by decide)).1

/-- Splitting a millisecond-tick simulation of the buzzer player. -/
theorem simBuzzer_add (b : BuzzerState) (t0 m n : Nat) :
    simBuzzer b t0 (m + n) = simBuzzer (simBuzzer b t0 m) (t0 + m) n := by
  induction m generalizing b t0 with
  | zero => simp [simBuzzer]
  | succ k ih =>
    have h1 : k + 1 + n = (k + n) + 1 := by omega
    rw [h1]
    show simBuzzer (updateBuzzerAlarm (t0 + 1) b) (t0 + 1) (k + n) = _
    rw [ih]
    have h2 : t0 + 1 + k = t0 + (k + 1) := by omega
    rw [h2]
    rfl

/-- An SOS tick before the current step's threshold changes nothing. -/
theorem updateBuzzerAlarm_sos_hold (now : Nat) (b : BuzzerState)
    (h1 : b.pattern = .sos) (h2 : b.step < 10)
    (h3 : now - b.last < sosDurations.getD b.step 0 + 150) :
    updateBuzzerAlarm now b = b := by
  obtain ⟨pat, st, la, bs, tf⟩ := b
  dsimp only at h1 h2 h3
  subst h1
  simp only [updateBuzzerAlarm]
  rw [if_pos h2, if_neg (not_le.mpr h3)]

/-- An SOS tick at or past the current step's threshold plays the step's
tone and advances the step, timestamped at the tick. -/
theorem updateBuzzerAlarm_sos_fire (now : Nat) (b : BuzzerState)
    (h1 : b.pattern = .sos) (h2 : b.step < 10)
    (h3 : now - b.last ≥ sosDurations.getD b.step 0 + 150) :
    updateBuzzerAlarm now b
      = { b with toneFreq := some 800, last := now, step := b.step + 1 } := by
  obtain ⟨pat, st, la, bs, tf⟩ := b
  dsimp only at h1 h2 h3
  subst h1
  simp only [updateBuzzerAlarm]
  rw [if_pos h2, if_pos h3]

/-- After the last SOS step, a tick before the closing gap elapses changes
nothing. -/
theorem updateBuzzerAlarm_sos_end_hold (now : Nat) (b : BuzzerState)
    (h1 : b.pattern = .sos) (h2 : ¬ b.step < 10) (h3 : now - b.last < 150) :
    updateBuzzerAlarm now b = b := by
  obtain ⟨pat, st, la, bs, tf⟩ := b
  dsimp only at h1 h2 h3
  subst h1
  simp only [updateBuzzerAlarm]
  rw [if_neg h2, if_neg (not_le.mpr h3)]

/-- After the last SOS step, the tick that ends the closing gap returns the
pattern state to Off. -/
theorem updateBuzzerAlarm_sos_end_fire (now : Nat) (b : BuzzerState)
    (h1 : b.pattern = .sos) (h2 : ¬ b.step < 10) (h3 : now - b.last ≥ 150) :
    updateBuzzerAlarm now b = { b with pattern := .off, step := 0 } := by
  obtain ⟨pat, st, la, bs, tf⟩ := b
  dsimp only at h1 h2 h3
  subst h1
  simp only [updateBuzzerAlarm]
  rw [if_neg h2, if_pos h3]

/-- A run of ticks that all land strictly before the current SOS step's
threshold leaves the state unchanged. -/
theorem simBuzzer_sos_hold (b : BuzzerState)
    (h1 : b.pattern = .sos) (h2 : b.step < 10) :
    ∀ (k t0 : Nat), b.last ≤ t0 →
      t0 + k < b.last + (sosDurations.getD b.step 0 + 150) →
      simBuzzer b t0 k = b := by
  intro k
  induction k with
  | zero => intro t0 _ _; rfl
  | succ n ih =>
    intro t0 hL hk
    have hu : updateBuzzerAlarm (t0 + 1) b = b :=
      updateBuzzerAlarm_sos_hold _ _ h1 h2 (by omega)
    show simBuzzer (updateBuzzerAlarm (t0 + 1) b) (t0 + 1) n = b
    rw [hu]
    exact ih (t0 + 1) (by omega) (by omega)

/-- A run of ticks inside the closing gap after the last SOS step leaves the
state unchanged. -/
theorem simBuzzer_sos_end_hold (b : BuzzerState)
    (h1 : b.pattern = .sos) (h2 : ¬ b.step < 10) :
    ∀ (k t0 : Nat), b.last ≤ t0 → t0 + k < b.last + 150 →
      simBuzzer b t0 k = b := by
  intro k
  induction k with
  | zero => intro t0 _ _; rfl
  | succ n ih =>
    intro t0 hL hk
    have hu : updateBuzzerAlarm (t0 + 1) b = b :=
      updateBuzzerAlarm_sos_end_hold _ _ h1 h2 (by omega)
    show simBuzzer (updateBuzzerAlarm (t0 + 1) b) (t0 + 1) n = b
    rw [hu]
    exact ih (t0 + 1) (by omega) (by omega)

/-- One full SOS step: starting at the step's timestamp, exactly
`sosDurations[step] + 150` millisecond ticks elapse before the step fires. -/
theorem simBuzzer_sos_segment (b : BuzzerState)
    (h1 : b.pattern = .sos) (h2 : b.step < 10) :
    simBuzzer b b.last (sosDurations.getD b.step 0 + 150)
      = { b with toneFreq := some 800,
                 last := b.last + (sosDurations.getD b.step 0 + 150),
                 step := b.step + 1 } := by
  have hsplit : sosDurations.getD b.step 0 + 150
      = (sosDurations.getD b.step 0 + 149) + 1 := by omega
  rw [hsplit, simBuzzer_add]
  rw [simBuzzer_sos_hold b h1 h2 _ _ (le_refl _) (by omega)]
  show updateBuzzerAlarm (b.last + (sosDurations.getD b.step 0 + 149) + 1) b = _
  rw [updateBuzzerAlarm_sos_fire _ _ h1 h2 (by omega)]
  have he : b.last + (sosDurations.getD b.step 0 + 149) + 1
      = b.last + (sosDurations.getD b.step 0 + 150) := by omega
  rw [he]

/-- The closing gap of SOS: 150 ticks after the last step fired, the pattern
auto-returns to Off. -/
theorem simBuzzer_sos_end (b : BuzzerState)
    (h1 : b.pattern = .sos) (h2 : ¬ b.step < 10) :
    simBuzzer b b.last 150 = { b with pattern := .off, step := 0 } := by
  rw [show (150 : Nat) = 149 + 1 from rfl, simBuzzer_add]
  rw [simBuzzer_sos_end_hold b h1 h2 _ _ (le_refl _) (by omega)]
  show updateBuzzerAlarm (b.last + 149 + 1) b = _
  exact updateBuzzerAlarm_sos_end_fire _ _ h1 h2 (by omega)

/-- Claim C7: SOS playback under millisecond ticking follows the 10-entry
step table `{0,150,150,150,400,400,400,150,150,150}` with a fixed 150
time-unit gap before each step: step `i` fires exactly at the running sum
`sosFireTime i` of `sosDurations[k] + 150`, the pattern auto-returns to Off
exactly 150 time-units after the last step (still playing at 3749, Off at
3750), and the total playback duration 3750 equals the literal sum of the
table (2100) plus the eleven 150-unit gap segments the player executes (the
gap before each of the ten steps and the closing gap), which is also
`sosFireTime 9 + 150`. -/
theorem claim_C7 :
    (simBuzzer (triggerBuzzerPattern .sos 0) 0 3750).pattern = .off
    ∧ (simBuzzer (triggerBuzzerPattern .sos 0) 0 3749).pattern = .sos
    ∧ (∀ i : Fin 10,
        simBuzzer (triggerBuzzerPattern .sos 0) 0 (sosFireTime i.val)
          = { pattern := .sos, step := i.val + 1, last := sosFireTime i.val,
              state := false, toneFreq := some 800 })
    ∧ sosDurations.sum + 11 * 150 = 3750
    ∧ sosFireTime 9 + 150 = 3750 := by
  have seg : ∀ (i last : Nat) (st : Bool) (tf : Option Nat), i < 10 →
      simBuzzer ⟨.sos, i, last, st, tf⟩ last (sosDurations.getD i 0 + 150)
        = ⟨.sos, i + 1, last + (sosDurations.getD i 0 + 150), st, some 800⟩ :=
    fun i last st tf hi => simBuzzer_sos_segment ⟨.sos, i, last, st, tf⟩ rfl hi
  have p0 : simBuzzer (triggerBuzzerPattern .sos 0) 0 150
      = ⟨.sos, 1, 150, false, some 800⟩ := seg 0 0 false none (by norm_num)
  have p1 : simBuzzer (triggerBuzzerPattern .sos 0) 0 450
      = ⟨.sos, 2, 450, false, some 800⟩ := by
    rw [show (450 : Nat) = 150 + 300 from by norm_num, simBuzzer_add, p0]
    norm_num
    exact seg 1 150 false (some 800) (by norm_num)
  have p2 : simBuzzer (triggerBuzzerPattern .sos 0) 0 750
      = ⟨.sos, 3, 750, false, some 800⟩ := by
    rw [show (750 : Nat) = 450 + 300 from by norm_num, simBuzzer_add, p1]
    norm_num
    exact seg 2 450 false (some 800) (by norm_num)
  have p3 : simBuzzer (triggerBuzzerPattern .sos 0) 0 1050
      = ⟨.sos, 4, 1050, false, some 800⟩ := by
    rw [show (1050 : Nat) = 750 + 300 from by norm_num, simBuzzer_add, p2]
    norm_num
    exact seg 3 750 false (some 800) (by norm_num)
  have p4 : simBuzzer (triggerBuzzerPattern .sos 0) 0 1600
      = ⟨.sos, 5, 1600, false, some 800⟩ := by
    rw [show (1600 : Nat) = 1050 + 550 from by norm_num, simBuzzer_add, p3]
    norm_num
    exact seg 4 1050 false (some 800) (by norm_num)
  have p5 : simBuzzer (triggerBuzzerPattern .sos 0) 0 2150
      = ⟨.sos, 6, 2150, false, some 800⟩ := by
    rw [show (2150 : Nat) = 1600 + 550 from by norm_num, simBuzzer_add, p4]
    norm_num
    exact seg 5 1600 false (some 800) (by norm_num)
  have p6 : simBuzzer (triggerBuzzerPattern .sos 0) 0 2700
      = ⟨.sos, 7, 2700, false, some 800⟩ := by
    rw [show (2700 : Nat) = 2150 + 550 from by norm_num, simBuzzer_add, p5]
    norm_num
    exact seg 6 2150 false (some 800) (by norm_num)
  have p7 : simBuzzer (triggerBuzzerPattern .sos 0) 0 3000
      = ⟨.sos, 8, 3000, false, some 800⟩ := by
    rw [show (3000 : Nat) = 2700 + 300 from by norm_num, simBuzzer_add, p6]
    norm_num
    exact seg 7 2700 false (some 800) (by norm_num)
  have p8 : simBuzzer (triggerBuzzerPattern .sos 0) 0 3300
      = ⟨.sos, 9, 3300, false, some 800⟩ := by
    rw [show (3300 : Nat) = 3000 + 300 from by norm_num, simBuzzer_add, p7]
    norm_num
    exact seg 8 3000 false (some 800) (by norm_num)
  have p9 : simBuzzer (triggerBuzzerPattern .sos 0) 0 3600
      = ⟨.sos, 10, 3600, false, some 800⟩ := by
    rw [show (3600 : Nat) = 3300 + 300 from by norm_num, simBuzzer_add, p8]
    norm_num
    exact seg 9 3300 false (some 800) (by norm_num)
  have pOff : simBuzzer (triggerBuzzerPattern .sos 0) 0 3750
      = ⟨.off, 0, 3600, false, some 800⟩ := by
    rw [show (3750 : Nat) = 3600 + 150 from by norm_num, simBuzzer_add, p9]
    norm_num
    exact simBuzzer_sos_end ⟨.sos, 10, 3600, false, some 800⟩ rfl (by norm_num)
  have pHold : simBuzzer (triggerBuzzerPattern .sos 0) 0 3749
      = ⟨.sos, 10, 3600, false, some 800⟩ := by
    rw [show (3749 : Nat) = 3600 + 149 from by norm_num, simBuzzer_add, p9]
    norm_num
    exact simBuzzer_sos_end_hold ⟨.sos, 10, 3600, false, some 800⟩ rfl
      (by norm_num) 149 3600 (by norm_num) (by norm_num)
  refine ⟨by rw [pOff], by rw [pHold], ?_, by decide, by decide⟩
  intro i
  fin_cases i
  · exact p0
  · exact p1
  · exact p2
  · exact p3
  · exact p4
  · exact p5
  · exact p6
  · exact p7
  · exact p8
  · exact p9

end UselessBoxes
